import Mathlib

/-!
Verification of the IMX662 sensor driver core (simple_video_server repository).

The definitions below are a shallow embedding of the C driver sources:
  * `src/IMX662_driver/imx662_mipi.c`  (NXP/vvcam variant)
  * `src/IMX662_driver/fr_imx662.c`    (Framos V4L2 variant)
  * `src/IMX662_driver/imx662.c`       (Raspberry-Pi style variant)
  * `src/components/imx662/imx662.c`   (ESP32 front-end)

Machine integers are modelled as `Nat` with explicit reduction modulo `2^32`
where 32-bit overflow can occur (`u32` / `wsub32`); C integer division on
non-negative operands is `Nat` division.
-/

/-- 32-bit truncation, for values assigned to `u32` variables in the C code. -/
def u32 (x : Nat) : Nat := x % 2 ^ 32

/-- 32-bit unsigned subtraction `a - b` (wraps modulo `2^32`), for
`a b < 2^32` as produced by the driver code. -/
def wsub32 (a b : Nat) : Nat := (2 ^ 32 + a - b) % 2 ^ 32

/- Driver constants from `imx662_mipi.c` (macro names kept). -/

def IMX662_INCK : Nat := 74250000
def IMX662_K_FACTOR : Nat := 1000
def IMX662_G_FACTOR : Nat := 1000000000
def IMX662_MIN_SHR0_LENGTH : Nat := 4
def IMX662_MIN_SHR0_CLEAR_LENGTH : Nat := 8
def IMX662_MIN_SHR0_RHS1_DIST : Nat := 5
def IMX662_MIN_SHR1_LENGTH : Nat := 5
def IMX662_MIN_INTEGRATION_LINES : Nat := 1
def IMX662_MAX_VS_INTEGRATION_LINES : Nat := 66
def IMX662_MIN_VS_INTEGRATION_LINES : Nat := 2
def IMX662_BRL : Nat := 1120
def IMX662_MAX_BOUNDS_HEIGHT : Nat := 1250
def IMX662_GAIN_REG_LEN : Nat := 241

/- `enum mode_index` from `imx662_mipi.c`. -/
def IMX662_ALL_PIXEL_INDEX : Nat := 0
def IMX662_CROP_INDEX : Nat := 1
def IMX662_BINNING_INDEX : Nat := 2
def IMX662_BINNING_CROP_INDEX : Nat := 3
def IMX662_DOL_INDEX : Nat := 4
def IMX662_CLEAR_INDEX : Nat := 5

/- `enum data_rate_mode` values used by the data-rate logic. -/
def IMX662_720_MBPS : Nat := 6
def IMX662_594_MBPS : Nat := 7

/- Media-bus format codes used by the black-level logic
(`MEDIA_BUS_FMT_SRGGB10_1X10` / `MEDIA_BUS_FMT_SRGGB12_1X12`). -/
def MEDIA_BUS_FMT_SRGGB10_1X10 : Nat := 0x300f
def MEDIA_BUS_FMT_SRGGB12_1X12 : Nat := 0x3012

/-- The 241-entry `gain_reg2times` table from `imx662_mipi.c`: linear
gain-times (1024 = unity) indexed by the sensor gain register code. -/
def gain_reg2times : List Nat := [
  1024, 1060, 1097, 1136, 1176, 1217, 1260, 1304, 1350, 1397, 1446, 1497,
  1550, 1604, 1661, 1719, 1780, 1842, 1907, 1974, 2043, 2115, 2189, 2266,
  2346, 2428, 2514, 2602, 2693, 2788, 2886, 2987, 3092, 3201, 3314, 3430,
  3551, 3675, 3805, 3938, 4077, 4220, 4368, 4522, 4681, 4845, 5015, 5192,
  5374, 5563, 5758, 5961, 6170, 6387, 6611, 6844, 7084, 7333, 7591, 7858,
  8134, 8420, 8716, 9022, 9339, 9667, 10007, 10359, 10723, 11099, 11489,
  11893, 12311, 12744, 13192, 13655, 14135, 14632, 15146, 15678, 16229,
  16800, 17390, 18001, 18634, 19289, 19966, 20668, 21394, 22146, 22925,
  23730, 24564, 25427, 26321, 27246, 28203, 29194, 30220, 31282, 32382,
  33520, 34698, 35917, 37179, 38486, 39838, 41238, 42687, 44188, 45740,
  47348, 49012, 50734, 52517, 54363, 56273, 58251, 60298, 62417, 64610,
  66881, 69231, 71664, 74182, 76789, 79488, 82281, 85173, 88166, 91264,
  94471, 97791, 101228, 104785, 108468, 112279, 116225, 120310, 124537,
  128914, 133444, 138134, 142988, 148013, 153215, 158599, 164172, 169942,
  175914, 182096, 188495, 195119, 201976, 209074, 216421, 224027, 231900,
  240049, 248485, 257217, 266256, 275613, 285299, 295325, 305703, 316446,
  327567, 339078, 350994, 363329, 376097, 389314, 402995, 417157, 431817,
  446992, 462700, 478961, 495793, 513216, 531251, 549921, 569246, 589250,
  609958, 631393, 653582, 676550, 700326, 724936, 750412, 776783, 804081,
  832338, 861589, 891867, 923209, 955652, 989236, 1024000, 1059986, 1097236,
  1135795, 1175709, 1217026, 1259795, 1304067, 1349895, 1397333, 1446438,
  1497269, 1549887, 1604353, 1660734, 1719095, 1779508, 1842044, 1906777,
  1973786, 2043149, 2114949, 2189273, 2266209, 2345848, 2428287, 2513622,
  2601956, 2693394, 2788046, 2886024, 2987445, 3092431, 3201105, 3313599,
  3430046, 3550585, 3675361, 3804521, 3938220, 4076617]

/-- `gain_reg2times[i]` as a total function (all accesses in the driver are
in bounds `0..240`). -/
def gtab (i : Nat) : Nat := gain_reg2times.getD i 0

/-- The `while ((l + 1) < r)` binary-search loop of `imx662_get_gain_reg`,
written with explicit fuel (the loop terminates because `r - l` shrinks;
fuel `241 ≥ r - l` is always sufficient). -/
def gainSearchLoop : Nat → Nat → Nat → Nat → Nat × Nat
  | 0, _, l, r => (l, r)
  | fuel + 1, gain, l, r =>
    if l + 1 < r then
      let mid := (l + r) / 2
      if gtab mid > gain then gainSearchLoop fuel gain l mid
      else gainSearchLoop fuel gain mid r
    else (l, r)

/-- `imx662_get_gain_reg` from `imx662_mipi.c`: nearest-neighbour lookup of a
linear gain-time in `gain_reg2times`.  The two `u32` subtractions in the
closest-value selection do not wrap because the loop maintains
`gtab l ≤ gain ≤ gtab r` for in-range inputs, so `Nat` subtraction agrees. -/
def imx662_get_gain_reg (gain : Nat) : Nat :=
  if gain < gtab 0 then 0
  else if gain > gtab (IMX662_GAIN_REG_LEN - 1) then 240
  else
    let p := gainSearchLoop 241 gain 0 (IMX662_GAIN_REG_LEN - 1)
    if gain - gtab p.1 < gtab p.2 - gain then p.1 else p.2

/- Register addresses used below (`fr_imx662_regs.h` / `imx662_regs.h`). -/
def STANDBY_REG : Nat := 0x3000
def XMSTA_REG : Nat := 0x3002
def IMX662_MODE_STANDBY : Nat := 0x01
def IMX662_MODE_STREAMING : Nat := 0x00

/-- `imx662_set_exp` from `imx662_mipi.c`: translate an exposure request into
the SHR0 register value actually written.  `which_control = 0` is the ISP path
(fixed-point exposure, `exp >> 10` nanoseconds), `which_control = 1` the V4L2
path (`exp` nanoseconds).  Parameters mirror `sensor->cur_mode.ae_info`. -/
def imx662_set_exp (mode_index frame_length line_time min_int max_int : Nat)
    (exp which_control : Nat) : Nat :=
  let itl0 : Nat :=
    if which_control = 0 then u32 ((exp / 1024) * IMX662_K_FACTOR / line_time)
    else u32 (exp * IMX662_K_FACTOR / line_time)
  let itl1 : Nat := if itl0 > max_int then max_int else itl0
  let itl : Nat := if itl1 < min_int then min_int else itl1
  let reg_shr0 : Nat :=
    if mode_index = IMX662_DOL_INDEX then
      let r0 := wsub32 (u32 (2 * frame_length)) itl
      let r1 := if r0 % 2 = 1 then wsub32 r0 1 else r0
      if r1 > wsub32 (u32 (2 * frame_length)) IMX662_MIN_INTEGRATION_LINES then
        wsub32 (u32 (2 * frame_length)) IMX662_MIN_INTEGRATION_LINES
      else r1
    else
      let r0 := wsub32 frame_length itl
      if r0 > wsub32 frame_length IMX662_MIN_INTEGRATION_LINES then
        wsub32 frame_length IMX662_MIN_INTEGRATION_LINES
      else r0
  let min_shr0 : Nat :=
    if mode_index = IMX662_CLEAR_INDEX then IMX662_MIN_SHR0_CLEAR_LENGTH
    else IMX662_MIN_SHR0_LENGTH
  max min_shr0 reg_shr0

/-- `imx662_set_vs_exp` from `imx662_mipi.c`: given the SHR0 value read back
from the sensor (`reg_shr0`) and a sub-exposure request, compute the
`(SHR1, RHS1)` register pair that is written.  `min_vs`/`max_vs` mirror
`ae_info.min_vsintegration_line` / `max_vsintegration_line`. -/
def imx662_set_vs_exp (line_time min_vs max_vs : Nat)
    (reg_shr0 exp which_control : Nat) : Nat × Nat :=
  let itl0 : Nat :=
    if which_control = 0 then u32 ((exp / 1024) * IMX662_K_FACTOR / line_time)
    else u32 (exp * IMX662_K_FACTOR / line_time)
  let itl1 : Nat := if itl0 < min_vs then min_vs else itl0
  let itl : Nat := if itl1 > max_vs then max_vs else itl1
  let reg_shr1 : Nat := IMX662_MIN_SHR1_LENGTH
  let r0 := wsub32 reg_shr0 IMX662_MIN_SHR0_RHS1_DIST
  let r1 := max (2 * IMX662_BRL - 1) r0
  let r2 := if reg_shr0 ≤ r1 then wsub32 reg_shr0 5 else r1
  let r3 :=
    if wsub32 r2 reg_shr1 > itl then
      let n := u32 (itl + reg_shr1)
      if n % 2 = 1 then n else wsub32 n 1
    else r2
  (reg_shr1, r3)

/-- `imx662_set_fps` from `imx662_mipi.c`: frame-rate request (fixed-point,
`fps << 10`, or plain fps for the V4L2 path) to the VMAX register value that
is written and stored into `curr_frm_len_lines`. -/
def imx662_set_fps (mode_index line_time min_fps max_fps : Nat)
    (fps0 which_control : Nat) : Nat :=
  let fps1 : Nat := if which_control = 1 then u32 (fps0 * 1024) else fps0
  let fps : Nat :=
    if fps1 > max_fps then max_fps
    else if fps1 < min_fps then min_fps
    else fps1
  let v0 : Nat := u32 (IMX662_G_FACTOR / u32 ((fps / 1024) * line_time))
  let v1 : Nat := if mode_index = IMX662_DOL_INDEX then v0 / 2 else v0
  if v1 % 2 = 1 then v1 + 1 else v1

/-- `imx662_set_black_level` from `imx662_mipi.c`: value written to the
BLKLEVEL register for a requested black level `val` (the control keeps
`0 ≤ val ≤ 4095`, so `val >> 2` is `val / 4`). -/
def imx662_set_black_level (fmt_code val : Nat) : Nat :=
  if fmt_code = MEDIA_BUS_FMT_SRGGB10_1X10 then val else val / 4

/-- `imx662_set_blklvl` from `fr_imx662.c` (same decision on
`imx662->fmt_code`). -/
def imx662_set_blklvl (fmt_code val : Nat) : Nat :=
  if fmt_code = MEDIA_BUS_FMT_SRGGB10_1X10 then val else val / 4

/-- `imx662_adjust_hmax_register` from `imx662_mipi.c`: HMAX value selected
for the data rate and binning mode read back from the sensor; `none` models
the `return -1` error path.  The C guard `data_rate == IMX662_720_MBPS &&
~binning_mode` promotes the `u8` to `int`, so `~binning_mode = -1 -
binning_mode`, which is never zero. -/
def imx662_adjust_hmax_register (data_rate binning_mode : Nat) : Option Nat :=
  if data_rate = IMX662_720_MBPS ∧ (-1 - (binning_mode : Int)) ≠ 0 then
    some 660
  else if data_rate = IMX662_594_MBPS then
    some (if binning_mode ≠ 0 then 660 else 990)
  else none

/-- The line-time recomputation at the end of `imx662_adjust_hmax_register`:
`one_line_exp_time_ns = hmax * 10^9 / IMX662_INCK`. -/
def imx662_one_line_time_ns (hmax : Nat) : Nat :=
  hmax * IMX662_G_FACTOR / IMX662_INCK

/-- `imx662_change_data_rate` from `imx662_mipi.c`: the data-rate selector
actually programmed for a requested selector, given the binning mode read
back (`IMX662_BINNING_MODE = 1`); unsupported combinations fall back to
594 Mbps. -/
def imx662_change_data_rate (binning_mode data_rate : Nat) : Nat :=
  if binning_mode = 1 then
    if data_rate ≠ IMX662_594_MBPS then IMX662_594_MBPS else data_rate
  else
    if data_rate ≠ IMX662_720_MBPS ∧ data_rate ≠ IMX662_594_MBPS then
      IMX662_594_MBPS
    else data_rate

/-- A register write `(address, value)` issued over the bus. -/
abbrev RegWrite : Type := Nat × Nat

/-- `imx662_stop_streaming` from `fr_imx662.c`: the register writes issued on
a stream-stop (serdes collaborator calls aside): `XMSTA := 1`, then
`STANDBY := IMX662_MODE_STANDBY`. -/
def imx662_stop_streaming_writes : List RegWrite :=
  [(XMSTA_REG, 1), (STANDBY_REG, IMX662_MODE_STANDBY)]

/-- `imx662_start_streaming` from `fr_imx662.c`: the register writes issued on
a stream-start.  `modeWrites` stands for the mode/format/hmax/data-rate/
triggering-pin table written by `imx662_set_mode`, and `ctrlWrites` for the
pending control values applied by `__v4l2_ctrl_handler_setup`; after them the
function writes `STANDBY := IMX662_MODE_STREAMING` and `XMSTA` (`0` in master
mode, `1` in slave mode). -/
def imx662_start_streaming_writes (modeWrites ctrlWrites : List RegWrite)
    (master_mode : Bool) : List RegWrite :=
  modeWrites ++ ctrlWrites ++
    [(STANDBY_REG, IMX662_MODE_STREAMING),
     (XMSTA_REG, if master_mode then 0 else 1)]

/-- `imx662_set_stream` from `fr_imx662.c`: guarded by
`if (imx662->streaming == enable) return 0;`.  Returns the new `streaming`
flag, the register writes issued, and the return code (0 = success). -/
def imx662_set_stream (streaming : Bool) (modeWrites ctrlWrites : List RegWrite)
    (master_mode : Bool) (enable : Bool) : Bool × List RegWrite × Int :=
  if streaming = enable then (streaming, [], 0)
  else if enable then
    (true, imx662_start_streaming_writes modeWrites ctrlWrites master_mode, 0)
  else
    (false, imx662_stop_streaming_writes, 0)

/-- `imx662_s_stream` from `imx662_mipi.c` (non-GMSL path): sets
`stream_status := enable` unconditionally — there is no guard on the current
`stream_status`, which the function never reads — then writes
`STANDBY := 0x00` and `XMSTA := 0x00` on enable, or `STANDBY := 0x01` and
`XMSTA := 0x01` on disable, and returns 0.  The result is the new
`stream_status`, the register writes issued, and the return code. -/
def imx662_s_stream (stream_status enable : Bool) : Bool × List RegWrite × Int :=
  if enable then (enable, [(STANDBY_REG, 0x00), (XMSTA_REG, 0x00)], 0)
  else (enable, [(STANDBY_REG, 0x01), (XMSTA_REG, 0x01)], 0)

/-- A V4L2 integer control: its range, default and currently-held value. -/
structure V4l2Ctrl where
  minimum : Int
  maximum : Int
  default : Int
  val : Int

/-- Modelled from the spec: `__v4l2_ctrl_modify_range` (host-framework code,
not in this repository).  Per the spec, a dependent-range update installs the
new `[min, max]` range and, if the currently-held value now falls outside it,
clamps the value to the nearest bound and re-applies it synchronously. -/
def v4l2_ctrl_modify_range (c : V4l2Ctrl) (newMin newMax newDef : Int) :
    V4l2Ctrl :=
  { minimum := newMin, maximum := newMax, default := newDef,
    val := max newMin (min newMax c.val) }

/-- `imx662_adjust_exposure_range` from `fr_imx662.c`, invoked by
`imx662_set_ctrl` on every `V4L2_CID_VBLANK` change:
`exposure_max = vblank + mode->height - IMX662_MIN_SHR0_LENGTH`, and the
exposure control's range becomes
`[IMX662_MIN_INTEGRATION_LINES, exposure_max]` with default `exposure_max`. -/
def imx662_adjust_exposure_range (vblank height : Int) (exposure : V4l2Ctrl) :
    V4l2Ctrl :=
  let exposure_max := vblank + height - (IMX662_MIN_SHR0_LENGTH : Int)
  v4l2_ctrl_modify_range exposure (IMX662_MIN_INTEGRATION_LINES : Int)
    exposure_max exposure_max

/-- `imx662_set_exposure` from `src/components/imx662/imx662.c` (ESP32
front-end): VMAX is assembled from the three bytes read back, `shr0 = vmax -
exposure` in `u32` arithmetic, floored at 11, and written back as low byte,
mid byte and a 4-bit high nibble (`(shr0 >> 16) & 0x0F`). -/
def esp_imx662_set_exposure (vmax_l vmax_m vmax_h exposure : Nat) :
    Nat × Nat × Nat :=
  let vmax := vmax_l + vmax_m * 256 + vmax_h * 65536
  let shr0_raw := wsub32 vmax exposure
  let shr0 := if shr0_raw < 11 then 11 else shr0_raw
  (shr0 % 256, shr0 / 256 % 256, shr0 / 65536 % 16)

/-- The SHR0 value a read-back of the three bytes written by
`esp_imx662_set_exposure` reassembles to. -/
def esp_shr0_written (w : Nat × Nat × Nat) : Nat :=
  w.1 + w.2.1 * 256 + w.2.2 * 65536

/-- Spec-side frame-length formula for the refinement claim about
`imx662_set_fps`, following the spec's words: `frame_length =
reference_clock_scaled / (fps × line_time_ns)`, for a dual-row-readout HDR
(DOL) mode divided by two, then forced to the nearest larger even value. -/
def imx662_vmax_from_spec (dol : Bool) (fps line_time : Nat) : Nat :=
  let v := IMX662_G_FACTOR / (fps * line_time)
  let v2 := if dol then v / 2 else v
  v2 + v2 % 2

theorem u32_eq_of_lt {x : Nat} (h : x < 2 ^ 32) : u32 x = x :=
  Nat.mod_eq_of_lt h

theorem wsub32_eq_sub {a b : Nat} (hb : b ≤ a) (ha : a < 2 ^ 32) :
    wsub32 a b = a - b := by
  unfold wsub32; omega

theorem wsub32_eq_wrap {a b : Nat} (hab : a < b) (hb : b < 2 ^ 32) :
    wsub32 a b = 2 ^ 32 + a - b := by
  unfold wsub32; omega

/-- C2 counterexample: the table-exact gain-time 32382 does not resolve to
gain register code 200 — `gain_reg2times` places 32382 at index 100
(30 dB at 0.3 dB per step), so the nearest-neighbour lookup returns 100. -/
theorem gain_lookup_32382_ne_200 : ¬ imx662_get_gain_reg 32382 = 200 := by
  decide

/-- C2 (amended): the gain-time to register-code translation maps the exact
table entry 1024 (unity gain, 0 dB) to gain register code 0, and the exact
table entry 32382 (≈30 dB) to gain register code 100. -/
theorem gain_lookup_exact_entries :
    imx662_get_gain_reg 1024 = 0 ∧ imx662_get_gain_reg 32382 = 100 := by
  decide

/-- C9 counterexample: with the active format 10-bit
(`MEDIA_BUS_FMT_SRGGB10_1X10`) and requested black level 200, the driver
writes 200 unshifted, not `200 >> 2 = 50` as the claim states for the
10-bit case. -/
theorem black_level_10bit_not_shifted :
    ¬ imx662_set_black_level MEDIA_BUS_FMT_SRGGB10_1X10 200 = 200 / 4 := by
  decide

/-- C9 (amended): both driver variants write the requested black level
unshifted when the active format is 10-bit, and right-shifted by 2 (mapping
the 12-bit-domain request into the 10-bit-equivalent register space)
otherwise. -/
theorem black_level_register_rule (val : Nat) :
    imx662_set_black_level MEDIA_BUS_FMT_SRGGB10_1X10 val = val ∧
    imx662_set_black_level MEDIA_BUS_FMT_SRGGB12_1X12 val = val / 4 ∧
    imx662_set_blklvl MEDIA_BUS_FMT_SRGGB10_1X10 val = val ∧
    imx662_set_blklvl MEDIA_BUS_FMT_SRGGB12_1X12 val = val / 4 := by
  refine ⟨rfl, ?_, rfl, ?_⟩ <;>
    simp [imx662_set_black_level, imx662_set_blklvl,
      MEDIA_BUS_FMT_SRGGB10_1X10, MEDIA_BUS_FMT_SRGGB12_1X12]

/-- C7: for every valid (data_rate, binning) combination in the sensor's
support matrix, `imx662_adjust_hmax_register` programs exactly the
table-documented HMAX value (990 for 594 Mbps non-binned, 660 for 594 Mbps
binned, 660 for 720 Mbps non-binned), `imx662_change_data_rate` accepts the
combination unchanged, and the line time is recomputed as
`hmax × 10^9 / reference_clock`. -/
theorem data_rate_hmax_table :
    imx662_adjust_hmax_register IMX662_594_MBPS 0 = some 990 ∧
    imx662_adjust_hmax_register IMX662_594_MBPS 1 = some 660 ∧
    imx662_adjust_hmax_register IMX662_720_MBPS 0 = some 660 ∧
    imx662_change_data_rate 0 IMX662_594_MBPS = IMX662_594_MBPS ∧
    imx662_change_data_rate 1 IMX662_594_MBPS = IMX662_594_MBPS ∧
    imx662_change_data_rate 0 IMX662_720_MBPS = IMX662_720_MBPS ∧
    imx662_one_line_time_ns 990 = 13333 ∧
    imx662_one_line_time_ns 660 = 8888 := by
  refine ⟨?_, ?_, ?_, ?_, ?_, ?_, ?_, ?_⟩ <;> decide

/-- C8 counterexample: in the vvcam variant (`imx662_s_stream`,
`imx662_mipi.c`) a stream-start while `stream_status` is already set
re-issues the STANDBY and XMSTA register writes — the operation is not
write-free when already streaming, and symmetrically a stop while stopped
re-issues both writes. -/
theorem s_stream_not_idempotent :
    (imx662_s_stream true true).2.1 = [(STANDBY_REG, 0), (XMSTA_REG, 0)] ∧
    ¬ (imx662_s_stream true true).2.1 = [] ∧
    ¬ (imx662_s_stream false false).2.1 = [] := by
  decide

/-- C8 (amended): in the Framos V4L2 variant, `imx662_set_stream` is
idempotent — whenever the requested state equals the current `streaming`
flag (start while streaming, stop while stopped), it returns success (0)
with no register write and the state unchanged.  (The vvcam variant's
`imx662_s_stream` has no such guard and unconditionally re-issues the
STANDBY/XMSTA writes.) -/
theorem set_stream_idempotent (streaming enable master_mode : Bool)
    (modeWrites ctrlWrites : List RegWrite)
    (h : streaming = enable) :
    imx662_set_stream streaming modeWrites ctrlWrites master_mode enable
      = (streaming, [], 0) := by
  simp [imx662_set_stream, h]

/-- C8 witness: a stream-start while already streaming, with a non-empty
pending mode table, issues no write and succeeds. -/
theorem set_stream_idempotent_witness :
    imx662_set_stream true [(STANDBY_REG, 0)] [(XMSTA_REG, 0)] true true
      = (true, [], 0) :=
  set_stream_idempotent true true true [(STANDBY_REG, 0)] [(XMSTA_REG, 0)] rfl

/-- C5: a vertical-blanking change recomputes the exposure control's legal
range synchronously (`imx662_adjust_exposure_range` runs inside the
`V4L2_CID_VBLANK` branch of `imx662_set_ctrl` before it returns): the new
range is `[1, vblank + height - 4]` and the held exposure value is clamped
into it, so it lies inside the newly computed range. -/
theorem vblank_exposure_range_invariant (vblank height : Int)
    (exposure : V4l2Ctrl) (h : 1 ≤ vblank + height - 4) :
    (imx662_adjust_exposure_range vblank height exposure).minimum = 1 ∧
    (imx662_adjust_exposure_range vblank height exposure).maximum
      = vblank + height - 4 ∧
    (imx662_adjust_exposure_range vblank height exposure).minimum
      ≤ (imx662_adjust_exposure_range vblank height exposure).val ∧
    (imx662_adjust_exposure_range vblank height exposure).val
      ≤ (imx662_adjust_exposure_range vblank height exposure).maximum := by
  have e : imx662_adjust_exposure_range vblank height exposure =
      { minimum := 1, maximum := vblank + height - 4,
        default := vblank + height - 4,
        val := max 1 (min (vblank + height - 4) exposure.val) } := by
    unfold imx662_adjust_exposure_range v4l2_ctrl_modify_range
    norm_num [IMX662_MIN_INTEGRATION_LINES, IMX662_MIN_SHR0_LENGTH]
  rw [e]
  exact ⟨rfl, rfl, le_max_left _ _, max_le h (min_le_left _ _)⟩

/-- C5 witness: at vblank 170, mode height 1080 and a held exposure of 5000
(now out of range), the recomputed range is `[1, 1246]` and the held value is
clamped inside it. -/
theorem vblank_exposure_range_witness :
    (imx662_adjust_exposure_range 170 1080 ⟨1, 2000, 2000, 5000⟩).minimum
        ≤ (imx662_adjust_exposure_range 170 1080 ⟨1, 2000, 2000, 5000⟩).val ∧
    (imx662_adjust_exposure_range 170 1080 ⟨1, 2000, 2000, 5000⟩).val
        ≤ (imx662_adjust_exposure_range 170 1080 ⟨1, 2000, 2000, 5000⟩).maximum :=
  ⟨(vblank_exposure_range_invariant 170 1080 ⟨1, 2000, 2000, 5000⟩
      (by norm_num)).2.2.1,
   (vblank_exposure_range_invariant 170 1080 ⟨1, 2000, 2000, 5000⟩
      (by norm_num)).2.2.2⟩

/-- C6: for a V4L2 frame-rate request `fps` inside the mode's fps limits, the
VMAX value computed by `imx662_set_fps` refines the spec formula: frame
length `10^9 / (fps × line_time)`, for the DOL mode divided by two first,
then forced to the nearest larger even value — so the stored value is always
even. -/
theorem set_fps_even_rounding (mode_index line_time min_fps max_fps fps : Nat)
    (hlt0 : 0 < line_time) (hlt1 : line_time ≤ 20000)
    (hlo : min_fps ≤ fps * 1024) (hhi : fps * 1024 ≤ max_fps)
    (hfmax : max_fps < 2 ^ 22) :
    (mode_index = IMX662_DOL_INDEX →
      imx662_set_fps mode_index line_time min_fps max_fps fps 1
        = imx662_vmax_from_spec true fps line_time) ∧
    (mode_index ≠ IMX662_DOL_INDEX →
      imx662_set_fps mode_index line_time min_fps max_fps fps 1
        = imx662_vmax_from_spec false fps line_time) ∧
    Even (imx662_set_fps mode_index line_time min_fps max_fps fps 1) := by
  have hu1 : u32 (fps * 1024) = fps * 1024 := u32_eq_of_lt (by omega)
  have hdiv : fps * 1024 / 1024 = fps := Nat.mul_div_cancel _ (by norm_num)
  have hmul : fps * line_time < 2 ^ 32 := by
    have h1 : fps * line_time ≤ 4096 * 20000 :=
      Nat.mul_le_mul (by omega) hlt1
    omega
  have hu2 : u32 (fps * line_time) = fps * line_time := u32_eq_of_lt hmul
  have hu3 : u32 (IMX662_G_FACTOR / (fps * line_time))
      = IMX662_G_FACTOR / (fps * line_time) :=
    u32_eq_of_lt (lt_of_le_of_lt (Nat.div_le_self _ _)
      (by norm_num [IMX662_G_FACTOR]))
  have key : imx662_set_fps mode_index line_time min_fps max_fps fps 1
      = (if (if mode_index = IMX662_DOL_INDEX
              then IMX662_G_FACTOR / (fps * line_time) / 2
              else IMX662_G_FACTOR / (fps * line_time)) % 2 = 1
         then (if mode_index = IMX662_DOL_INDEX
              then IMX662_G_FACTOR / (fps * line_time) / 2
              else IMX662_G_FACTOR / (fps * line_time)) + 1
         else (if mode_index = IMX662_DOL_INDEX
              then IMX662_G_FACTOR / (fps * line_time) / 2
              else IMX662_G_FACTOR / (fps * line_time))) := by
    unfold imx662_set_fps
    simp only [hu1, eq_self_iff_true, if_true]
    rw [if_neg (by omega : ¬ fps * 1024 > max_fps),
      if_neg (by omega : ¬ fps * 1024 < min_fps), hdiv, hu2, hu3]
  have vt : imx662_vmax_from_spec true fps line_time
      = IMX662_G_FACTOR / (fps * line_time) / 2
        + IMX662_G_FACTOR / (fps * line_time) / 2 % 2 := by
    simp [imx662_vmax_from_spec]
  have vf : imx662_vmax_from_spec false fps line_time
      = IMX662_G_FACTOR / (fps * line_time)
        + IMX662_G_FACTOR / (fps * line_time) % 2 := by
    simp [imx662_vmax_from_spec]
  refine ⟨fun h => ?_, fun h => ?_, ?_⟩
  · rw [key, vt]
    simp only [if_pos h]
    split_ifs <;> omega
  · rw [key, vf]
    simp only [if_neg h]
    split_ifs <;> omega
  · rw [key, Nat.even_iff]
    split_ifs <;> omega

/-- C6 witness: a 30 fps request in the DOL mode at line time 13333 ns gives
VMAX `10^9 / (30 × 13333) / 2 = 1250`, already even. -/
theorem set_fps_witness :
    imx662_set_fps IMX662_DOL_INDEX 13333 1024 30720 30 1 = 1250 := by
  have h := (set_fps_even_rounding IMX662_DOL_INDEX 13333 1024 30720 30
    (by norm_num) (by norm_num) (by norm_num) (by norm_num)
    (by norm_num)).1 rfl
  rw [h]; decide

/-- C10: in the ESP32 front-end's `imx662_set_exposure`, for every request
with `exposure ≤ VMAX` the written 3-byte SHR0 equals
`max 11 (VMAX - exposure)`; for `exposure > VMAX` the `u32` subtraction wraps
modulo `2^32`, the raw result stays at least 11 (so the minimum-shutter floor
never engages) yet exceeds `VMAX` (no legal shutter position), and only its
low 20 bits reach the registers. -/
theorem esp_set_exposure_wrap (vmax_l vmax_m vmax_h exposure : Nat)
    (hl : vmax_l < 256) (hm : vmax_m < 256) (hh : vmax_h < 16)
    (hexp : exposure < 2 ^ 32)
    (hgap : exposure ≤ vmax_l + vmax_m * 256 + vmax_h * 65536 + (2 ^ 32 - 12)) :
    (exposure ≤ vmax_l + vmax_m * 256 + vmax_h * 65536 →
      esp_shr0_written (esp_imx662_set_exposure vmax_l vmax_m vmax_h exposure)
        = max 11 (vmax_l + vmax_m * 256 + vmax_h * 65536 - exposure)) ∧
    (vmax_l + vmax_m * 256 + vmax_h * 65536 < exposure →
      11 ≤ wsub32 (vmax_l + vmax_m * 256 + vmax_h * 65536) exposure ∧
      vmax_l + vmax_m * 256 + vmax_h * 65536
        < wsub32 (vmax_l + vmax_m * 256 + vmax_h * 65536) exposure ∧
      esp_shr0_written (esp_imx662_set_exposure vmax_l vmax_m vmax_h exposure)
        = wsub32 (vmax_l + vmax_m * 256 + vmax_h * 65536) exposure % 2 ^ 20) := by
  simp only [esp_imx662_set_exposure, esp_shr0_written, wsub32]
  constructor
  · intro h
    rw [Nat.max_def]
    split_ifs <;> omega
  · intro h
    refine ⟨by omega, by omega, ?_⟩
    split_ifs <;> omega

/-- C10 witness: with VMAX = 1250 (bytes 0xE2, 0x04, 0x00), a request of 1000
lines writes SHR0 = 250, while a request of 2000 lines wraps to
`2^32 - 750`, far above VMAX. -/
theorem esp_set_exposure_witness :
    esp_shr0_written (esp_imx662_set_exposure 226 4 0 1000) = 250 ∧
    1250 < wsub32 1250 2000 := by
  constructor
  · have h := (esp_set_exposure_wrap 226 4 0 1000 (by norm_num) (by norm_num)
      (by norm_num) (by norm_num) (by norm_num)).1 (by norm_num)
    rw [h]; decide
  · exact ((esp_set_exposure_wrap 226 4 0 2000 (by norm_num) (by norm_num)
      (by norm_num) (by norm_num) (by norm_num)).2 (by norm_num)).2.1

/-- Closed form of the non-DOL branch of `imx662_set_exp` (V4L2 path): the
written SHR0 is the mode minimum shutter `max`-ed with `frame_length` minus
the clamped integration-line count. -/
theorem imx662_set_exp_nondol_closed (mode_index frame_length line_time
    min_int max_int : Nat) (exp : Nat)
    (hmode : mode_index ≠ IMX662_DOL_INDEX)
    (hcomp : exp * 1000 / line_time < 2 ^ 32)
    (hmin1 : 1 ≤ min_int) (hminmax : min_int ≤ max_int)
    (hmaxfl : max_int ≤ frame_length) (hfl2 : frame_length < 2 ^ 32) :
    imx662_set_exp mode_index frame_length line_time min_int max_int exp 1
      = max (if mode_index = IMX662_CLEAR_INDEX then 8 else 4)
          (frame_length
            - max min_int (min max_int (exp * 1000 / line_time))) := by
  unfold imx662_set_exp
  simp only [IMX662_K_FACTOR, IMX662_MIN_INTEGRATION_LINES,
    IMX662_MIN_SHR0_CLEAR_LENGTH, IMX662_MIN_SHR0_LENGTH,
    eq_self_iff_true, if_true, if_neg hmode,
    if_neg (by norm_num : ¬ (1 : Nat) = 0)]
  rw [u32_eq_of_lt hcomp]
  have h1 : wsub32 frame_length 1 = frame_length - 1 :=
    wsub32_eq_sub (by omega) hfl2
  set a := exp * 1000 / line_time with ha
  have h2 : wsub32 frame_length (if (if a > max_int then max_int else a)
      < min_int then min_int else if a > max_int then max_int else a)
      = frame_length - (if (if a > max_int then max_int else a)
      < min_int then min_int else if a > max_int then max_int else a) :=
    wsub32_eq_sub (by split_ifs <;> omega) hfl2
  rw [h1, h2]
  rw [Nat.max_def, Nat.max_def, Nat.min_def]
  split_ifs <;> omega

/-- C1: for every V4L2 exposure request on a non-DOL mode, the integration
count `exp × 1000 / line_time` is clamped to the mode's legal window before
conversion, so that a request below `min_int` writes SHR0 =
`frame_length - min_int`, and a request above `frame_length - min_shutter`
writes SHR0 = the mode's minimum shutter (8 for the dual-gain clear-HDR
mode, 4 otherwise).  The hypotheses state the `ae_info` invariants the
driver maintains (`max_integration_line` at least
`frame_length - min_shutter` and at most `frame_length`, as set by the mode
tables and by `imx662_set_fps`). -/
theorem set_exp_clamping (mode_index frame_length line_time min_int max_int
    exp : Nat)
    (hmode : mode_index ≠ IMX662_DOL_INDEX)
    (hlt : 1000 ≤ line_time) (hexp : exp < 2 ^ 32)
    (hmin1 : 1 ≤ min_int)
    (hminshr : min_int ≤ (if mode_index = IMX662_CLEAR_INDEX then 8 else 4))
    (hfl : (if mode_index = IMX662_CLEAR_INDEX then 8 else 4) + min_int
      ≤ frame_length)
    (hfl2 : frame_length < 2 ^ 32)
    (hmaxlo : frame_length - (if mode_index = IMX662_CLEAR_INDEX then 8 else 4)
      ≤ max_int)
    (hmaxfl : max_int ≤ frame_length) :
    (exp * 1000 / line_time < min_int →
      imx662_set_exp mode_index frame_length line_time min_int max_int exp 1
        = frame_length - min_int) ∧
    (frame_length - (if mode_index = IMX662_CLEAR_INDEX then 8 else 4)
        < exp * 1000 / line_time →
      imx662_set_exp mode_index frame_length line_time min_int max_int exp 1
        = (if mode_index = IMX662_CLEAR_INDEX then 8 else 4)) := by
  have hcomp : exp * 1000 / line_time < 2 ^ 32 := by
    have hd : exp * 1000 / line_time ≤ exp * 1000 / 1000 :=
      Nat.div_le_div_left hlt (by norm_num)
    have he : exp * 1000 / 1000 = exp := by omega
    omega
  rw [imx662_set_exp_nondol_closed mode_index frame_length line_time min_int
    max_int exp hmode hcomp hmin1 (by split_ifs at * <;> omega)
    (by omega) hfl2]
  set a := exp * 1000 / line_time with ha
  rw [Nat.max_def, Nat.max_def, Nat.min_def]
  constructor <;> intro h <;> split_ifs at * <;> omega

/-- C1 witness: in the all-pixel mode (`frame_length` 1250, line time
13333 ns, `min_int` 1, `max_int` 1246), a 10 ns request clamps low and writes
SHR0 = 1249 = 1250 - 1, while a 20 ms request clamps high and writes
SHR0 = 4, the minimum shutter. -/
theorem set_exp_clamping_witness :
    imx662_set_exp IMX662_ALL_PIXEL_INDEX 1250 13333 1 1246 10 1 = 1249 ∧
    imx662_set_exp IMX662_ALL_PIXEL_INDEX 1250 13333 1 1246 20000000 1 = 4 := by
  constructor
  · have h := (set_exp_clamping IMX662_ALL_PIXEL_INDEX 1250 13333 1 1246 10
      (by decide) (by decide) (by decide) (by decide) (by decide)
      (by decide) (by decide) (by decide) (by decide)).1
      (by decide)
    rw [h]
  · have h := (set_exp_clamping IMX662_ALL_PIXEL_INDEX 1250 13333 1 1246
      20000000
      (by decide) (by decide) (by decide) (by decide) (by decide)
      (by decide) (by decide) (by decide) (by decide)).2
      (by decide)
    rw [h]; decide

/-- C4 counterexample: with main shutter S = 2496 already programmed (a
typical DOL value) and a V4L2 sub-exposure request of 26666 ns at line time
13333 ns (integration target clamped to the mode maximum 66), the RHS1
register actually written is 71, which violates the claimed lower bound
`R ≥ 2 × BRL - 1 = 2239`. -/
theorem set_vs_exp_counterexample :
    (imx662_set_vs_exp 13333 2 66 2496 26666 1).2 = 71 ∧
    ¬ 2 * IMX662_BRL - 1 ≤ (imx662_set_vs_exp 13333 2 66 2496 26666 1).2 := by
  decide

/-- C4 (amended): for a main shutter S with `2 × BRL - 1 + 5 ≤ S`, the
sub-exposure translation writes SHR1 = 5 and an RHS1 register R with:
the intermediate datasheet maximum `S - 5` does respect both bounds
(`2 × BRL - 1 ≤ S - 5`); the final R never exceeds `S - 5`; the effective
integration `R - SHR1` never exceeds the clamped integration target; when
the target is below `S - 10` the offset is narrowed to `target + 5` rounded
down to the nearest odd value (so the final R may drop below `2 × BRL - 1`);
otherwise R stays at `S - 5` and the target is effectively clamped down to
`R - SHR1`. -/
theorem set_vs_exp_offset (line_time min_vs max_vs reg_shr0 exp : Nat)
    (hlt : 1000 ≤ line_time) (hexp : exp < 2 ^ 32)
    (hmv1 : 1 ≤ min_vs) (hmv2 : min_vs ≤ max_vs) (hmv3 : max_vs ≤ 2 ^ 16)
    (hS : 2 * IMX662_BRL - 1 + IMX662_MIN_SHR0_RHS1_DIST ≤ reg_shr0)
    (hS2 : reg_shr0 < 2 ^ 32) :
    (imx662_set_vs_exp line_time min_vs max_vs reg_shr0 exp 1).1
      = IMX662_MIN_SHR1_LENGTH ∧
    2 * IMX662_BRL - 1 ≤ reg_shr0 - IMX662_MIN_SHR0_RHS1_DIST ∧
    (imx662_set_vs_exp line_time min_vs max_vs reg_shr0 exp 1).2
      ≤ reg_shr0 - IMX662_MIN_SHR0_RHS1_DIST ∧
    (imx662_set_vs_exp line_time min_vs max_vs reg_shr0 exp 1).2
        - IMX662_MIN_SHR1_LENGTH
      ≤ min max_vs (max min_vs (exp * 1000 / line_time)) ∧
    (min max_vs (max min_vs (exp * 1000 / line_time)) < reg_shr0 - 10 →
      (imx662_set_vs_exp line_time min_vs max_vs reg_shr0 exp 1).2 % 2 = 1 ∧
      min max_vs (max min_vs (exp * 1000 / line_time)) + 4
        ≤ (imx662_set_vs_exp line_time min_vs max_vs reg_shr0 exp 1).2 ∧
      (imx662_set_vs_exp line_time min_vs max_vs reg_shr0 exp 1).2
        ≤ min max_vs (max min_vs (exp * 1000 / line_time)) + 5) ∧
    (¬ min max_vs (max min_vs (exp * 1000 / line_time)) < reg_shr0 - 10 →
      (imx662_set_vs_exp line_time min_vs max_vs reg_shr0 exp 1).2
        = reg_shr0 - 5) := by
  have hcomp : exp * 1000 / line_time < 2 ^ 32 := by
    have hd : exp * 1000 / line_time ≤ exp * 1000 / 1000 :=
      Nat.div_le_div_left hlt (by norm_num)
    have he : exp * 1000 / 1000 = exp := by omega
    omega
  have hBRL : 2 * IMX662_BRL - 1 = 2239 := by decide
  have hdist : IMX662_MIN_SHR0_RHS1_DIST = 5 := by decide
  have hshr1 : IMX662_MIN_SHR1_LENGTH = 5 := by decide
  have key : imx662_set_vs_exp line_time min_vs max_vs reg_shr0 exp 1
      = (5,
         if reg_shr0 - 10
             > min max_vs (max min_vs (exp * 1000 / line_time)) then
           (if (min max_vs (max min_vs (exp * 1000 / line_time)) + 5) % 2 = 1
            then min max_vs (max min_vs (exp * 1000 / line_time)) + 5
            else min max_vs (max min_vs (exp * 1000 / line_time)) + 4)
         else reg_shr0 - 5) := by
    unfold imx662_set_vs_exp
    simp only [IMX662_K_FACTOR, IMX662_MIN_SHR1_LENGTH,
      IMX662_MIN_SHR0_RHS1_DIST, IMX662_BRL,
      eq_self_iff_true, if_true, if_neg (by norm_num : ¬ (1 : Nat) = 0)]
    rw [u32_eq_of_lt hcomp]
    set a := exp * 1000 / line_time with ha
    have hclamp : (if (if a < min_vs then min_vs else a) > max_vs then max_vs
        else if a < min_vs then min_vs else a)
        = min max_vs (max min_vs a) := by
      rw [Nat.max_def, Nat.min_def]; split_ifs <;> omega
    rw [hclamp]
    have h1 : wsub32 reg_shr0 5 = reg_shr0 - 5 :=
      wsub32_eq_sub (by omega) hS2
    have h2 : max (2 * 1120 - 1) (reg_shr0 - 5) = reg_shr0 - 5 := by
      rw [Nat.max_def]; split_ifs <;> omega
    rw [h1, h2, if_neg (by omega : ¬ reg_shr0 ≤ reg_shr0 - 5)]
    have h3 : wsub32 (reg_shr0 - 5) 5 = reg_shr0 - 10 :=
      wsub32_eq_sub (by omega) (by omega)
    rw [h3]
    set b := min max_vs (max min_vs a) with hb
    have hble : b ≤ 2 ^ 16 := by
      rw [hb, Nat.min_def]; split_ifs <;> omega
    have h4 : u32 (b + 5) = b + 5 := u32_eq_of_lt (by omega)
    have h5 : wsub32 (b + 5) 1 = b + 4 :=
      wsub32_eq_sub (by omega) (by omega)
    rw [h4, h5]
  rw [key]
  have hble : min max_vs (max min_vs (exp * 1000 / line_time)) ≤ 2 ^ 16 := by
    rw [Nat.min_def]; split_ifs <;> omega
  rw [hBRL, hdist, hshr1]
  refine ⟨rfl, by omega, ?_, ?_, fun h => ?_, fun h => ?_⟩ <;>
    set a := min max_vs (max min_vs (exp * 1000 / line_time)) with ha <;>
    simp only [] <;> split_ifs <;> omega

/-- C4 amended-claim witness: at line time 13333 ns, VS window [2, 66], main
shutter 2496 and request 26666 ns, the written pair is (SHR1, RHS1) = (5, 71):
RHS1 is odd, at most S - 5 = 2491, and the effective integration
RHS1 - SHR1 = 66 equals the clamped target. -/
theorem set_vs_exp_offset_witness :
    (imx662_set_vs_exp 13333 2 66 2496 26666 1).1 = IMX662_MIN_SHR1_LENGTH ∧
    (imx662_set_vs_exp 13333 2 66 2496 26666 1).2 ≤ 2491 ∧
    (imx662_set_vs_exp 13333 2 66 2496 26666 1).2 % 2 = 1 := by
  have h := set_vs_exp_offset 13333 2 66 2496 26666 (by decide) (by decide)
    (by decide) (by decide) (by decide) (by decide) (by decide)
  refine ⟨h.1, ?_, (h.2.2.2.2.1 (by decide)).1⟩
  have h2 := h.2.2.1
  simpa using h2

set_option maxRecDepth 4000 in
/-- Adjacent entries of `gain_reg2times` are strictly increasing. -/
theorem gtab_adj : ∀ i : Fin 240, gtab i.val < gtab (i.val + 1) := by decide

/-- `gain_reg2times` is strictly increasing on indices `0..240`. -/
theorem gtab_lt_of_lt {i j : Nat} (hij : i < j) (hj : j ≤ 240) :
    gtab i < gtab j := by
  induction j with
  | zero => omega
  | succ n ih =>
    rcases Nat.lt_or_ge i n with h | h
    · exact lt_trans (ih h (by omega)) (gtab_adj ⟨n, by omega⟩)
    · have hin : i = n := by omega
      subst hin
      exact gtab_adj ⟨i, by omega⟩

/-- `gain_reg2times` is monotone on indices `0..240`. -/
theorem gtab_le_of_le {i j : Nat} (hij : i ≤ j) (hj : j ≤ 240) :
    gtab i ≤ gtab j := by
  rcases Nat.eq_or_lt_of_le hij with h | h
  · rw [h]
  · exact le_of_lt (gtab_lt_of_lt h hj)

/-- The binary-search loop invariant: starting from a window `[l, r]` with
`gtab l ≤ gain < gtab r` and enough fuel, the loop ends on an adjacent pair
that still brackets `gain`. -/
theorem gainSearchLoop_correct (gain : Nat) :
    ∀ fuel l r : Nat, l < r → r ≤ 240 → gtab l ≤ gain → gain < gtab r →
      r - l ≤ fuel →
      (gainSearchLoop fuel gain l r).1 + 1 = (gainSearchLoop fuel gain l r).2 ∧
      gtab (gainSearchLoop fuel gain l r).1 ≤ gain ∧
      gain < gtab (gainSearchLoop fuel gain l r).2 ∧
      (gainSearchLoop fuel gain l r).2 ≤ 240 := by
  intro fuel
  induction fuel with
  | zero => intro l r h1 _ _ _ h5; omega
  | succ n ih =>
    intro l r h1 h2 h3 h4 h5
    by_cases hc : l + 1 < r
    · have hm1 : l < (l + r) / 2 := by omega
      have hm2 : (l + r) / 2 < r := by omega
      simp only [gainSearchLoop, if_pos hc]
      by_cases hg : gtab ((l + r) / 2) > gain
      · rw [if_pos hg]
        exact ih l ((l + r) / 2) hm1 (by omega) h3 hg (by omega)
      · rw [if_neg hg]
        exact ih ((l + r) / 2) r hm2 h2 (by omega) h4 (by omega)
    · simp only [gainSearchLoop, if_neg hc]
      exact ⟨by omega, h3, h4, h2⟩

/-- Two adjacent bracketing indices for the same gain value coincide. -/
theorem gain_bracket_unique {g a b : Nat} (ha : a ≤ 239) (hb : b ≤ 239)
    (h1 : gtab a ≤ g) (h2 : g < gtab (a + 1)) (h3 : gtab b ≤ g)
    (h4 : g < gtab (b + 1)) : a = b := by
  rcases Nat.lt_trichotomy a b with h | h | h
  · have := gtab_le_of_le (show a + 1 ≤ b by omega) (by omega)
    omega
  · exact h
  · have := gtab_le_of_le (show b + 1 ≤ a by omega) (by omega)
    omega

/-- For an in-range gain below the top table entry, `imx662_get_gain_reg`
returns the nearest of the two adjacent table indices bracketing it. -/
theorem get_gain_reg_eq_sel {g : Nat} (h0 : gtab 0 ≤ g) (hT : g < gtab 240) :
    ∃ l, l ≤ 239 ∧ gtab l ≤ g ∧ g < gtab (l + 1) ∧
      imx662_get_gain_reg g
        = (if g - gtab l < gtab (l + 1) - g then l else l + 1) := by
  have hlen : IMX662_GAIN_REG_LEN - 1 = 240 := rfl
  have hc := gainSearchLoop_correct g 241 0 240 (by omega) (by omega) h0 hT
    (by omega)
  obtain ⟨he, hle, hlt, h240⟩ := hc
  refine ⟨(gainSearchLoop 241 g 0 240).1, by omega, hle, ?_, ?_⟩
  · rw [he]; exact hlt
  · unfold imx662_get_gain_reg
    simp only [hlen]
    rw [if_neg (by omega : ¬ g < gtab 0), if_neg (by omega : ¬ g > gtab 240)]
    rw [← he]

/-- The gain lookup never returns an index above 240. -/
theorem get_gain_reg_le_240 (g : Nat) : imx662_get_gain_reg g ≤ 240 := by
  have hlen : IMX662_GAIN_REG_LEN - 1 = 240 := rfl
  by_cases h0 : g < gtab 0
  · unfold imx662_get_gain_reg; rw [if_pos h0]; omega
  · by_cases hT : g > gtab 240
    · unfold imx662_get_gain_reg
      simp only [hlen]
      rw [if_neg h0, if_pos hT]
    · by_cases hTop : g < gtab 240
      · obtain ⟨l, hl, _, _, hsel⟩ := get_gain_reg_eq_sel (by omega) hTop
        rw [hsel]; split_ifs <;> omega
      · have hg : g = gtab 240 := by omega
        have hv : gtab 240 = 4076617 := by decide
        rw [hg, hv]
        have : imx662_get_gain_reg 4076617 = 240 := by decide
        omega

/-- C3: the gain-time to register-code lookup is monotonically
non-decreasing, out-of-range clamping to index 0 / 240 included: for all
linear gain-time inputs `g1 < g2`,
`imx662_get_gain_reg g1 ≤ imx662_get_gain_reg g2`. -/
theorem gain_lookup_monotone (g1 g2 : Nat) (h : g1 < g2) :
    imx662_get_gain_reg g1 ≤ imx662_get_gain_reg g2 := by
  have hlen : IMX662_GAIN_REG_LEN - 1 = 240 := rfl
  by_cases c1 : g1 < gtab 0
  · have e1 : imx662_get_gain_reg g1 = 0 := by
      unfold imx662_get_gain_reg; rw [if_pos c1]
    rw [e1]; exact Nat.zero_le _
  · push_neg at c1
    by_cases c2 : g2 > gtab 240
    · have e2 : imx662_get_gain_reg g2 = 240 := by
        unfold imx662_get_gain_reg
        simp only [hlen]
        rw [if_neg (by omega : ¬ g2 < gtab 0), if_pos c2]
      rw [e2]; exact get_gain_reg_le_240 g1
    · by_cases c3 : g2 < gtab 240
      · obtain ⟨l1, hl1, ha1, hb1, hs1⟩ :=
          get_gain_reg_eq_sel c1 (lt_trans h c3)
        obtain ⟨l2, hl2, ha2, hb2, hs2⟩ :=
          get_gain_reg_eq_sel (le_trans c1 (le_of_lt h)) c3
        have hll : l1 ≤ l2 := by
          by_contra hcon
          push_neg at hcon
          have := gtab_le_of_le (show l2 + 1 ≤ l1 by omega) (by omega)
          omega
        rcases Nat.lt_or_ge l1 l2 with hlt | hge
        · rw [hs1, hs2]; split_ifs <;> omega
        · have hll2 : l1 = l2 := by omega
          subst hll2
          rw [hs1, hs2]
          split_ifs <;> omega
      · have hg2 : g2 = gtab 240 := by omega
        have hv : gtab 240 = 4076617 := by decide
        have e2 : imx662_get_gain_reg g2 = 240 := by
          rw [hg2, hv]; decide
        rw [e2]; exact get_gain_reg_le_240 g1

/-- C3 witness: 2043 (≈6 dB) resolves to a code no larger than that of 4077
(≈12 dB). -/
theorem gain_lookup_monotone_witness :
    imx662_get_gain_reg 2043 ≤ imx662_get_gain_reg 4077 :=
  gain_lookup_monotone 2043 4077 (by norm_num)
